import Mathlib

/-!
Verification of the Workflow Studio graph editor and execution pipeline.

The definitions below are a shallow embedding of the program:
the React Flow editor state (nodes, edges), the LLM node configuration
component, the run-validation gate, the save serialization, and the
execution pipeline (generation invoker and context gatherer).
-/

namespace WorkflowStudio

/-- Values stored in a node data map (JavaScript object entries): strings,
numbers, booleans, and function values (handlers, identified by a tag). -/
inductive JSValue where
  | str (s : String)
  | num (q : ℚ)
  | boolVal (b : Bool)
  | func (handlerId : Nat)
  deriving DecidableEq, Repr

/-- A canvas position, as carried verbatim on every React Flow node. -/
structure Pos where
  x : Int
  y : Int
  deriving DecidableEq, Repr

/-- An editor node: id, node type string (userQuery, knowledgeBase,
llmEngine, output), position, selection state, and the data map
(which may hold an onChange handler plus configuration entries). -/
structure Node where
  id : String
  type : String
  position : Pos
  selected : Bool
  data : List (String × JSValue)
  deriving DecidableEq, Repr

/-- An editor edge: directed source to target, with an id, the edge type
string, and selection state. -/
structure Edge where
  id : String
  source : String
  target : String
  type : String
  selected : Bool
  deriving DecidableEq, Repr

/-- Node deletion handler of FlowContent: removes the node with the given id
and filters out every edge whose source or target is that id. -/
def onNodeDelete (nodes : List Node) (edges : List Edge) (nodeId : String) :
    List Node × List Edge :=
  (nodes.filter (fun node => node.id != nodeId),
   edges.filter (fun edge => edge.source != nodeId && edge.target != nodeId))

/-- An LLM Engine node configuration record, with the exact fields of the
component state. Temperature is a rational (the UI slider steps by 0.1). -/
structure LLMConfig where
  provider : String
  model : String
  api_key : String
  temperature : ℚ
  max_tokens : Int
  use_web_search : Bool
  serp_api_key : String
  custom_prompt : String
  deriving DecidableEq, Repr

/-- The initial configuration record created by the LLM Engine node
component before any user edit or loaded data is applied. -/
def initialLLMConfig : LLMConfig :=
  { provider := "openai"
    model := "gpt-3.5-turbo"
    api_key := ""
    temperature := 7/10
    max_tokens := 1000
    use_web_search := false
    serp_api_key := ""
    custom_prompt := "" }

/-- Partial configuration data loaded from a persisted node: each field may
be absent. Spreading it over the previous config keeps the previous value
for every absent field. -/
structure LLMDataPatch where
  provider : Option String
  model : Option String
  api_key : Option String
  temperature : Option ℚ
  max_tokens : Option Int
  use_web_search : Option Bool
  serp_api_key : Option String
  custom_prompt : Option String
  deriving DecidableEq, Repr

/-- A patch with every field absent. -/
def emptyLLMDataPatch : LLMDataPatch :=
  { provider := none, model := none, api_key := none, temperature := none
    max_tokens := none, use_web_search := none, serp_api_key := none
    custom_prompt := none }

/-- The object-spread merge performed by the component when node data is
available: present patch fields override, absent ones keep the previous
config value. -/
def applyLLMData (prev : LLMConfig) (d : LLMDataPatch) : LLMConfig :=
  { provider := d.provider.getD prev.provider
    model := d.model.getD prev.model
    api_key := d.api_key.getD prev.api_key
    temperature := d.temperature.getD prev.temperature
    max_tokens := d.max_tokens.getD prev.max_tokens
    use_web_search := d.use_web_search.getD prev.use_web_search
    serp_api_key := d.serp_api_key.getD prev.serp_api_key
    custom_prompt := d.custom_prompt.getD prev.custom_prompt }

/-- Model options per provider, as the value and label pairs returned by
the switch in the LLM Engine node component. -/
def getModelOptions (provider : String) : List (String × String) :=
  if provider = "openai" then
    [("gpt-3.5-turbo", "GPT-3.5 Turbo"),
     ("gpt-4", "GPT-4"),
     ("gpt-4-turbo", "GPT-4 Turbo")]
  else if provider = "anthropic" then
    [("claude-3-sonnet", "Claude 3 Sonnet"),
     ("claude-3-opus", "Claude 3 Opus"),
     ("claude-3-haiku", "Claude 3 Haiku")]
  else if provider = "gemini" then
    [("gemini-2.5-pro", "Gemini 2.5 Pro"),
     ("gemini-2.5-flash", "Gemini 2.5 Flash"),
     ("gemini-2.5-flash-lite", "Gemini 2.5 Flash Lite"),
     ("gemini-2.0-flash", "Gemini 2.0 Flash"),
     ("gemini-2.0-flash-lite", "Gemini 2.0 Flash Lite")]
  else []

/-- A single field update passed to the configuration change handler. -/
inductive ConfigUpdate where
  | setProvider (v : String)
  | setModel (v : String)
  | setApiKey (v : String)
  | setTemperature (v : ℚ)
  | setMaxTokens (v : Int)
  | setUseWebSearch (v : Bool)
  | setSerpApiKey (v : String)
  | setCustomPrompt (v : String)
  deriving DecidableEq, Repr

/-- The configuration change handler: sets the field, and when the provider
changes it keeps the current model if it is among the new provider options,
otherwise replaces it with the first option (when one exists). -/
def handleConfigChange (config : LLMConfig) : ConfigUpdate → LLMConfig
  | .setProvider v =>
      let newConfig := { config with provider := v }
      let options := getModelOptions v
      match options.head? with
      | some first =>
          if options.any (fun o => o.1 == newConfig.model) then newConfig
          else { newConfig with model := first.1 }
      | none => newConfig
  | .setModel v => { config with model := v }
  | .setApiKey v => { config with api_key := v }
  | .setTemperature v => { config with temperature := v }
  | .setMaxTokens v => { config with max_tokens := v }
  | .setUseWebSearch v => { config with use_web_search := v }
  | .setSerpApiKey v => { config with serp_api_key := v }
  | .setCustomPrompt v => { config with custom_prompt := v }

/-- Outcome of pressing Run in the workflow builder: either an error toast
message (and the chat never opens, so no execution starts) or opening the
chat (from which execution requests are issued). -/
inductive RunOutcome where
  | toastError (message : String)
  | startChat
  deriving DecidableEq, Repr

/-- The Run button handler of the workflow builder: rejects an empty canvas,
an unsaved workflow, a graph without an output node, and an output node with
no incoming edge; otherwise opens the chat. -/
def handleRunWorkflow (nodes : List Node) (edges : List Edge)
    (savedWorkflowId : Option String) : RunOutcome :=
  if nodes.length = 0 then
    .toastError "Please add components to your workflow first"
  else if savedWorkflowId.isNone then
    .toastError "Please save your workflow first before running it"
  else
    match nodes.find? (fun n => n.type == "output") with
    | none => .toastError "Add an Output node to run the workflow"
    | some outputNode =>
        if edges.any (fun e => e.target == outputNode.id) then .startChat
        else .toastError "Connect something into the Output node"

/-- The outcomes that realize the GraphIncompleteError of the design (no
output node or malformed or empty graph): the two toasts that report a graph
with missing components or a missing output node. -/
def isGraphIncompleteError : RunOutcome → Bool
  | .toastError m =>
      m == "Please add components to your workflow first"
        || m == "Add an Output node to run the workflow"
  | .startChat => false

/-- The outcome that realizes the GraphDisconnectedError of the design:
the toast reporting that nothing feeds the output node. -/
def isGraphDisconnectedError : RunOutcome → Bool
  | .toastError m => m == "Connect something into the Output node"
  | .startChat => false

/-- A node as persisted by saving: only id, type, position and the data map
(with the onChange handler removed); no selection state, no other fields. -/
structure PersistedNode where
  id : String
  type : String
  position : Pos
  data : List (String × JSValue)
  deriving DecidableEq, Repr

/-- An edge as persisted by saving: only id, source, target and type. -/
structure PersistedEdge where
  id : String
  source : String
  target : String
  type : String
  deriving DecidableEq, Repr

/-- The components object sent to the workflows API on save. -/
structure WorkflowComponents where
  nodes : List PersistedNode
  edges : List PersistedEdge
  deriving DecidableEq, Repr

/-- The destructuring in the save handler that splits the onChange entry off
the node data and keeps the rest. -/
def dropOnChange (data : List (String × JSValue)) : List (String × JSValue) :=
  data.filter (fun kv => kv.1 != "onChange")

/-- The save handler serialization: maps every node to id, type, position
and the data map without onChange, and every edge to id, source, target and
type. -/
def handleSaveWorkflow (nodes : List Node) (edges : List Edge) :
    WorkflowComponents :=
  { nodes := nodes.map (fun node =>
      { id := node.id
        type := node.type
        position := node.position
        data := dropOnChange node.data })
    edges := edges.map (fun edge =>
      { id := edge.id
        source := edge.source
        target := edge.target
        type := edge.type }) }

/-- The per-message API-key badge rendered by the chat interface from the
api_key_provided flag of an execution result. -/
def credLabel (apiKeyProvided : Bool) : String :=
  if apiKeyProvided then "✅ Real API" else "⚠️ Mock Mode"

/-- The JSON body returned by the execute endpoint as consumed by the chat
interface send handler. -/
structure ExecResponse where
  success : Bool
  response : Option String
  errorText : Option String
  deriving DecidableEq, Repr

/-- A chat message appended by the send handler for the AI side. -/
structure ChatMessage where
  text : String
  sender : String
  isError : Bool
  hasMetadata : Bool
  deriving DecidableEq, Repr

/-- The chat send handler reaction to an execution response: on success it
appends an AI message with the response text and metadata; on failure the
thrown error is caught and a fixed error message with no metadata is
appended instead. -/
def aiMessageOfResult (result : ExecResponse) : ChatMessage :=
  if result.success then
    { text := result.response.getD "No response received"
      sender := "ai"
      isError := false
      hasMetadata := true }
  else
    { text := "Sorry, I encountered an error processing your request. Please try again."
      sender := "ai"
      isError := true
      hasMetadata := false }

/-- A provider-call failure: transport or auth. -/
inductive ProviderError where
  | transport (msg : String)
  | auth (msg : String)
  deriving DecidableEq, Repr

/-- A provider adapter: provider name, model, credential and prompt to
either generated text or a provider error. Models the single outward
generation call. -/
def ProviderSend : Type :=
  String → String → String → String → Except ProviderError String

/-- The normalized result envelope of one execution. -/
structure InvokeResult where
  generated_text : String
  provider_used : String
  model_used : String
  credential_was_supplied : Bool
  deriving DecidableEq, Repr

/-- Modelled from the spec: the deterministic mock payload produced by the
generation invoker when no credential is supplied, derived only from the
query and the context length (the backend ai service is not under src). -/
def mockResponse (query : String) (contextLength : Nat) : String :=
  "Mock response to: " ++ query ++ " [context length: "
    ++ toString contextLength ++ "]"

/-- Modelled from the spec: prompt construction of the generation invoker
(the backend ai service is not under src). If a custom prompt is set,
context and query are substituted into it; otherwise a default template of
system instruction, context block when non-empty, and the user query. -/
def buildPrompt (cfg : LLMConfig) (query context : String) : String :=
  if cfg.custom_prompt != "" then
    cfg.custom_prompt ++ "\n\nContext: " ++ context ++ "\n\nQuery: " ++ query
  else if context != "" then
    "You are a helpful assistant. Use the following context to answer.\n\nContext: "
      ++ context ++ "\n\nQuery: " ++ query
  else
    "You are a helpful assistant.\n\nQuery: " ++ query

deriving instance DecidableEq for Except

/-- The outcome of one invocation together with the list of provider
attempts made (provider, model per remote call). -/
structure InvokeTrace where
  outcome : Except ProviderError InvokeResult
  attempts : List (String × String)
  deriving DecidableEq, Repr

/-- Modelled from the spec: the generation invoker (the backend ai service
is not under src). With an empty credential it makes no provider call and
returns the mock result with credential_was_supplied false; otherwise it
makes exactly one call to the configured provider adapter, returning its
text on success and its error unchanged on failure, with no retry and no
fallback. -/
def invoke (send : ProviderSend) (cfg : LLMConfig) (query context : String) :
    InvokeTrace :=
  if cfg.api_key = "" then
    { outcome := .ok
        { generated_text := mockResponse query context.length
          provider_used := cfg.provider
          model_used := cfg.model
          credential_was_supplied := false }
      attempts := [] }
  else
    match send cfg.provider cfg.model cfg.api_key (buildPrompt cfg query context) with
    | .ok text =>
        { outcome := .ok
            { generated_text := text
              provider_used := cfg.provider
              model_used := cfg.model
              credential_was_supplied := true }
          attempts := [(cfg.provider, cfg.model)] }
    | .error e =>
        { outcome := .error e
          attempts := [(cfg.provider, cfg.model)] }

/-- A chunk retrieved from the vector store. -/
structure RetrievedChunk where
  text : String
  score : ℚ
  metadata : String
  deriving DecidableEq, Repr

/-- A context snippet: a retrieved chunk tagged with the knowledge-base
node that contributed it. -/
structure Snippet where
  text : String
  score : ℚ
  metadata : String
  sourceNodeId : String
  deriving DecidableEq, Repr

/-- The vector retrieval collaborator: collection key, query text and top_k
to the ranked chunks. -/
def Store : Type := String → String → Nat → List RetrievedChunk

/-- The deterministic collection naming scheme per workflow. -/
def collectionKey (workflowId : String) : String :=
  "workflow_" ++ workflowId

/-- A similarity query against the store: returns the ranked chunks and the
store after the read. The collection is read-only during generation, so the
read leaves the store unchanged. -/
def querySimilar (store : Store) (key query : String) (topK : Nat) :
    List RetrievedChunk × Store :=
  (store key query topK, store)

/-- Insertion into a node list ordered by node id. -/
def insertByNodeId (n : Node) : List Node → List Node
  | [] => [n]
  | m :: rest =>
      if n.id ≤ m.id then n :: m :: rest else m :: insertByNodeId n rest

/-- Sort a node list by node id (insertion sort), giving the deterministic
node-id order in which knowledge-base snippets are concatenated. -/
def sortByNodeId : List Node → List Node
  | [] => []
  | n :: rest => insertByNodeId n (sortByNodeId rest)

/-- Modelled from the spec: the context gatherer walk over the sorted
knowledge-base nodes (the backend engine is not under src). Each node
queries its workflow collection and contributes its chunks tagged with the
node id; the store is threaded through every read. -/
def gatherFrom : Store → String → String → Nat → List Node →
    List Snippet × Store
  | store, _, _, _, [] => ([], store)
  | store, wf, q, k, n :: rest =>
      let step := querySimilar store (collectionKey wf) q k
      let tail := gatherFrom step.2 wf q k rest
      (step.1.map (fun c =>
        { text := c.text, score := c.score, metadata := c.metadata
          sourceNodeId := n.id }) ++ tail.1,
       tail.2)

/-- Modelled from the spec: gather(knowledge_base_nodes, query, top_k) (the
backend engine is not under src). Filters the knowledge-base nodes, sorts
them by node id, and concatenates each node contribution from the vector
store, returning the snippets and the store after all reads. -/
def gather (store : Store) (workflowId : String) (kbNodes : List Node)
    (query : String) (topK : Nat) : List Snippet × Store :=
  gatherFrom store workflowId query topK
    (sortByNodeId (kbNodes.filter (fun n => n.type == "knowledgeBase")))

/-- True exactly on JavaScript function values. -/
def isFunc : JSValue → Bool
  | .func _ => true
  | _ => false

/-- C6: every optional field of an llm node configuration receives an
explicit default when the configuration record is created: temperature 0.7,
max tokens 1000, web-search flag false, custom prompt empty, provider
openai, model gpt-3.5-turbo; and a field absent from loaded node data still
carries its default after the merge with the initial record. -/
theorem llm_config_defaults (d : LLMDataPatch) :
    initialLLMConfig.temperature = 7/10 ∧
    initialLLMConfig.max_tokens = 1000 ∧
    initialLLMConfig.use_web_search = false ∧
    initialLLMConfig.custom_prompt = "" ∧
    initialLLMConfig.provider = "openai" ∧
    initialLLMConfig.model = "gpt-3.5-turbo" ∧
    (d.temperature = none →
      (applyLLMData initialLLMConfig d).temperature = 7/10) ∧
    (d.max_tokens = none →
      (applyLLMData initialLLMConfig d).max_tokens = 1000) ∧
    (d.use_web_search = none →
      (applyLLMData initialLLMConfig d).use_web_search = false) ∧
    (d.custom_prompt = none →
      (applyLLMData initialLLMConfig d).custom_prompt = "") ∧
    (d.provider = none →
      (applyLLMData initialLLMConfig d).provider = "openai") ∧
    (d.model = none →
      (applyLLMData initialLLMConfig d).model = "gpt-3.5-turbo") := by
  refine ⟨rfl, rfl, rfl, rfl, rfl, rfl, ?_, ?_, ?_, ?_, ?_, ?_⟩ <;>
    intro h <;> simp [applyLLMData, initialLLMConfig, h]

/-- C6 witness: a patch with every field absent keeps every default. -/
theorem llm_config_defaults_witness :
    (applyLLMData initialLLMConfig emptyLLMDataPatch).temperature = 7/10 ∧
    (applyLLMData initialLLMConfig emptyLLMDataPatch).max_tokens = 1000 ∧
    (applyLLMData initialLLMConfig emptyLLMDataPatch).use_web_search = false ∧
    (applyLLMData initialLLMConfig emptyLLMDataPatch).custom_prompt = "" ∧
    (applyLLMData initialLLMConfig emptyLLMDataPatch).provider = "openai" ∧
    (applyLLMData initialLLMConfig emptyLLMDataPatch).model = "gpt-3.5-turbo" := by
  obtain ⟨-, -, -, -, -, -, h7, h8, h9, h10, h11, h12⟩ :=
    llm_config_defaults emptyLLMDataPatch
  exact ⟨h7 rfl, h8 rfl, h9 rfl, h10 rfl, h11 rfl, h12 rfl⟩

/-- C8: deleting a node removes exactly that node from the node list and
exactly the edges incident to it from the edge list, so no remaining edge
references the deleted node id. -/
theorem onNodeDelete_removes_incident_edges (nodes : List Node)
    (edges : List Edge) (nodeId : String) :
    (∀ n, n ∈ (onNodeDelete nodes edges nodeId).1 ↔
      (n ∈ nodes ∧ n.id ≠ nodeId)) ∧
    (∀ e, e ∈ (onNodeDelete nodes edges nodeId).2 ↔
      (e ∈ edges ∧ e.source ≠ nodeId ∧ e.target ≠ nodeId)) := by
  constructor
  · intro n
    simp [onNodeDelete, List.mem_filter]
  · intro e
    simp [onNodeDelete, List.mem_filter, and_assoc]

/-- Reduction of the configuration change handler on a provider update. -/
theorem handleConfigChange_setProvider_eq (config : LLMConfig) (v : String) :
    handleConfigChange config (.setProvider v) =
      (match (getModelOptions v).head? with
      | some first =>
          if (getModelOptions v).any (fun o => o.1 == config.model) then
            { config with provider := v }
          else { config with provider := v, model := first.1 }
      | none => { config with provider := v }) := rfl

/-- C9: changing the provider of an llm configuration, when the new
provider has a non-empty model-option list, keeps the provider field, keeps
the current model exactly when it appears among the new provider options,
replaces it with the first option otherwise, and in all cases leaves a
model that is a member of the new provider option list. -/
theorem handleConfigChange_provider_consistent (config : LLMConfig)
    (v : String) (h : getModelOptions v ≠ []) :
    (handleConfigChange config (.setProvider v)).provider = v ∧
    (handleConfigChange config (.setProvider v)).model
      ∈ (getModelOptions v).map Prod.fst ∧
    (config.model ∈ (getModelOptions v).map Prod.fst →
      (handleConfigChange config (.setProvider v)).model = config.model) ∧
    (config.model ∉ (getModelOptions v).map Prod.fst →
      (getModelOptions v).head?.map Prod.fst
        = some (handleConfigChange config (.setProvider v)).model) := by
  obtain ⟨a, tl, hl⟩ : ∃ a tl, getModelOptions v = a :: tl := by
    cases hcase : getModelOptions v with
    | nil => exact absurd hcase h
    | cons a tl => exact ⟨a, tl, rfl⟩
  have hcc := handleConfigChange_setProvider_eq config v
  rw [hl] at hcc
  simp only [List.head?_cons] at hcc
  have hmem : config.model ∈ (a :: tl).map Prod.fst ↔
      ((a :: tl).any fun o => o.1 == config.model) = true := by
    simp only [List.mem_map, List.any_eq_true, beq_iff_eq]
  rw [hl]
  by_cases hb : ((a :: tl).any fun o => o.1 == config.model) = true
  · rw [if_pos hb] at hcc
    refine ⟨?_, ?_, ?_, ?_⟩
    · rw [hcc]
    · rw [hcc]
      exact hmem.mpr hb
    · intro _
      rw [hcc]
    · intro hnot
      exact absurd (hmem.mpr hb) hnot
  · rw [if_neg hb] at hcc
    refine ⟨?_, ?_, ?_, ?_⟩
    · rw [hcc]
    · rw [hcc]
      simp
    · intro hin
      exact absurd (hmem.mp hin) hb
    · intro _
      rw [hcc]
      simp

/-- C9 witness: switching the default configuration from openai to
anthropic yields a model among the anthropic options. -/
theorem handleConfigChange_provider_consistent_witness :
    getModelOptions "anthropic" ≠ [] ∧
    (handleConfigChange initialLLMConfig (ConfigUpdate.setProvider "anthropic")).model
      ∈ (getModelOptions "anthropic").map Prod.fst := by
  have h : getModelOptions "anthropic" ≠ [] := by decide
  exact ⟨h,
    (handleConfigChange_provider_consistent initialLLMConfig "anthropic" h).2.1⟩

/-- C10: saving the workflow persists for each node exactly id, type,
position and the data map with the onChange entry removed, and for each
edge exactly id, source, target and type; selection state is not persisted
(the persisted records have no such field) and, when handler functions live
only under the onChange key, no function value is persisted. -/
theorem handleSaveWorkflow_persists_exactly (nodes : List Node)
    (edges : List Edge)
    (hclean : ∀ n ∈ nodes, ∀ kv ∈ n.data,
      isFunc kv.2 = true → kv.1 = "onChange") :
    ((handleSaveWorkflow nodes edges).nodes.length = nodes.length) ∧
    ((handleSaveWorkflow nodes edges).edges.length = edges.length) ∧
    (∀ i, ((handleSaveWorkflow nodes edges).nodes.get? i) =
      (nodes.get? i).map (fun n =>
        { id := n.id, type := n.type, position := n.position
          data := dropOnChange n.data })) ∧
    (∀ i, ((handleSaveWorkflow nodes edges).edges.get? i) =
      (edges.get? i).map (fun e =>
        { id := e.id, source := e.source, target := e.target
          type := e.type })) ∧
    (∀ pn ∈ (handleSaveWorkflow nodes edges).nodes, ∀ kv ∈ pn.data,
      kv.1 ≠ "onChange" ∧ isFunc kv.2 = false) := by
  refine ⟨by simp [handleSaveWorkflow], by simp [handleSaveWorkflow],
    ?_, ?_, ?_⟩
  · intro i
    simp [handleSaveWorkflow]
  · intro i
    simp [handleSaveWorkflow]
  · intro pn hpn kv hkv
    simp only [handleSaveWorkflow, List.mem_map] at hpn
    obtain ⟨n, hn, rfl⟩ := hpn
    simp only [dropOnChange, List.mem_filter] at hkv
    obtain ⟨hkvmem, hkvkey⟩ := hkv
    have hne : kv.1 ≠ "onChange" := by simpa using hkvkey
    refine ⟨hne, ?_⟩
    by_contra hfn
    have : isFunc kv.2 = true := by
      cases hfv : isFunc kv.2
      · exact absurd hfv hfn
      · rfl
    exact hne (hclean n hn kv hkvmem this)

/-- C10 concrete editor state: one selected node carrying an onChange
handler and a config entry, one selected edge. -/
def c10_nodes : List Node :=
  [{ id := "llmEngine_1", type := "llmEngine", position := { x := 10, y := 20 }
     selected := true
     data := [("onChange", JSValue.func 0), ("provider", JSValue.str "openai")] }]

/-- C10 concrete edge list. -/
def c10_edges : List Edge :=
  [{ id := "e1", source := "llmEngine_1", target := "output_1"
     type := "custom", selected := true }]

/-- C10 witness: on the concrete state the hypothesis holds and the
persisted node data keeps the provider entry and drops the handler. -/
theorem handleSaveWorkflow_persists_exactly_witness :
    (∀ n ∈ c10_nodes, ∀ kv ∈ n.data,
      isFunc kv.2 = true → kv.1 = "onChange") ∧
    (handleSaveWorkflow c10_nodes c10_edges).nodes.length = c10_nodes.length := by
  have h : ∀ n ∈ c10_nodes, ∀ kv ∈ n.data,
      isFunc kv.2 = true → kv.1 = "onChange" := by decide
  exact ⟨h, (handleSaveWorkflow_persists_exactly c10_nodes c10_edges h).1⟩

/-- C2: on a saved workflow, a graph with no output-kind node (the empty
graph included) is refused with a GraphIncompleteError outcome and the chat
never opens, so no execution is started and no partial result is produced. -/
theorem run_no_output_graph_incomplete (nodes : List Node) (edges : List Edge)
    (saved : Option String) (hsaved : saved.isSome = true)
    (hno : ∀ n ∈ nodes, n.type ≠ "output") :
    isGraphIncompleteError (handleRunWorkflow nodes edges saved) = true ∧
    handleRunWorkflow nodes edges saved ≠ RunOutcome.startChat := by
  by_cases hlen : nodes.length = 0
  · constructor
    · simp [handleRunWorkflow, hlen, isGraphIncompleteError]
    · simp [handleRunWorkflow, hlen]
  · have hsome : saved.isNone = false := by
      cases saved with
      | none => simp at hsaved
      | some s => rfl
    have hfind : nodes.find? (fun n => n.type == "output") = none := by
      rw [List.find?_eq_none]
      intro x hx
      simpa using hno x hx
    constructor
    · simp [handleRunWorkflow, hlen, hsome, hfind, isGraphIncompleteError]
    · simp [handleRunWorkflow, hlen, hsome, hfind]

/-- C2 witness: the empty saved graph is refused as incomplete. -/
theorem run_no_output_graph_incomplete_witness :
    (some "wf-1" : Option String).isSome = true ∧
    isGraphIncompleteError (handleRunWorkflow [] [] (some "wf-1")) = true ∧
    handleRunWorkflow [] [] (some "wf-1") ≠ RunOutcome.startChat := by
  have h := run_no_output_graph_incomplete [] [] (some "wf-1") rfl (by simp)
  exact ⟨rfl, h.1, h.2⟩

/-- C4: on a saved workflow whose designated output node has no incoming
edge, the run is refused with the GraphDisconnectedError outcome before the
chat opens, so no provider or retrieval call can be issued. -/
theorem run_output_without_incoming_disconnected (nodes : List Node)
    (edges : List Edge) (saved : Option String) (out : Node)
    (hsaved : saved.isSome = true)
    (hout : nodes.find? (fun n => n.type == "output") = some out)
    (hnoin : ∀ e ∈ edges, e.target ≠ out.id) :
    handleRunWorkflow nodes edges saved =
      RunOutcome.toastError "Connect something into the Output node" ∧
    isGraphDisconnectedError (handleRunWorkflow nodes edges saved) = true := by
  have hlen : ¬ nodes.length = 0 := by
    intro hzero
    rw [List.length_eq_zero] at hzero
    subst hzero
    simp at hout
  have hsome : saved.isNone = false := by
    cases saved with
    | none => simp at hsaved
    | some s => rfl
  have hany : (edges.any fun e => e.target == out.id) = false := by
    rw [List.any_eq_false]
    intro e he
    simpa using hnoin e he
  constructor
  · simp [handleRunWorkflow, hlen, hsome, hout, hany]
  · simp [handleRunWorkflow, hlen, hsome, hout, hany, isGraphDisconnectedError]

/-- C4 concrete output node with no incoming edge. -/
def c4_out : Node :=
  { id := "output_1", type := "output", position := { x := 0, y := 0 }
    selected := false, data := [] }

/-- C4 witness: a saved one-node graph whose output has no incoming edge is
refused as disconnected. -/
theorem run_output_without_incoming_disconnected_witness :
    handleRunWorkflow [c4_out] [] (some "wf-1") =
      RunOutcome.toastError "Connect something into the Output node" ∧
    isGraphDisconnectedError (handleRunWorkflow [c4_out] [] (some "wf-1")) = true := by
  have h := run_output_without_incoming_disconnected [c4_out] [] (some "wf-1")
    c4_out rfl (by decide) (by simp)
  exact ⟨h.1, h.2⟩

/-- C3 concrete graph: a user-query node wired directly into the output
node, with no llm node anywhere. -/
def c3_query : Node :=
  { id := "q1", type := "userQuery", position := { x := 0, y := 0 }
    selected := false, data := [] }

/-- C3 output node of the concrete graph. -/
def c3_out : Node :=
  { id := "o1", type := "output", position := { x := 0, y := 1 }
    selected := false, data := [] }

/-- C3 node list of the concrete graph. -/
def c3_nodes : List Node := [c3_query, c3_out]

/-- C3 edge list: the only edge into the output comes from the non-llm
query node. -/
def c3_edges : List Edge :=
  [{ id := "e1", source := "q1", target := "o1", type := "custom"
     selected := false }]

/-- C3 counterexample: a saved graph whose output node is fed only by a
non-llm node (no llm node exists at all, so no edge chain from the output
reaches an llm node) is not refused with GraphDisconnectedError; the run
proceeds and opens the chat. -/
theorem run_non_llm_feed_counterexample :
    (∀ n ∈ c3_nodes, n.type ≠ "llmEngine") ∧
    handleRunWorkflow c3_nodes c3_edges (some "wf-1") = RunOutcome.startChat ∧
    isGraphDisconnectedError
      (handleRunWorkflow c3_nodes c3_edges (some "wf-1")) = false := by
  refine ⟨by decide, by decide, by decide⟩

/-- C3 amended: on a saved workflow with a designated output node, the run
is refused with GraphDisconnectedError exactly when no edge enters that
output node; one incoming edge from a node of any kind passes the check and
the run proceeds, so reachability of an llm node is not enforced. -/
theorem run_disconnected_iff_no_incoming (nodes : List Node)
    (edges : List Edge) (saved : Option String) (out : Node)
    (hsaved : saved.isSome = true)
    (hout : nodes.find? (fun n => n.type == "output") = some out) :
    (isGraphDisconnectedError (handleRunWorkflow nodes edges saved) = true ↔
      (edges.any fun e => e.target == out.id) = false) ∧
    (handleRunWorkflow nodes edges saved = RunOutcome.startChat ↔
      (edges.any fun e => e.target == out.id) = true) := by
  have hlen : ¬ nodes.length = 0 := by
    intro hzero
    rw [List.length_eq_zero] at hzero
    subst hzero
    simp at hout
  have hsome : saved.isNone = false := by
    cases saved with
    | none => simp at hsaved
    | some s => rfl
  cases hany : (edges.any fun e => e.target == out.id) with
  | true =>
    constructor
    · simp [handleRunWorkflow, hlen, hsome, hout, hany, isGraphDisconnectedError]
    · simp [handleRunWorkflow, hlen, hsome, hout, hany]
  | false =>
    constructor
    · simp [handleRunWorkflow, hlen, hsome, hout, hany, isGraphDisconnectedError]
    · simp [handleRunWorkflow, hlen, hsome, hout, hany]

/-- C3 amended witness: on the concrete graph the incoming edge from the
query node makes the run proceed. -/
theorem run_disconnected_iff_no_incoming_witness :
    (some "wf-1" : Option String).isSome = true ∧
    (handleRunWorkflow c3_nodes c3_edges (some "wf-1") = RunOutcome.startChat ↔
      (c3_edges.any fun e => e.target == c3_out.id) = true) := by
  have h := run_disconnected_iff_no_incoming c3_nodes c3_edges (some "wf-1")
    c3_out rfl (by decide)
  exact ⟨rfl, h.2⟩

/-- C1: with an empty credential the invoker makes zero provider attempts,
its result does not depend on the provider adapter at all, and it returns
the deterministic mock payload derived only from the query and the context
length, with credential_was_supplied false; the chat renders that flag as
the Mock Mode label. -/
theorem invoke_empty_credential_mock (send send2 : ProviderSend)
    (cfg : LLMConfig) (query context : String) (h : cfg.api_key = "") :
    (invoke send cfg query context).attempts = [] ∧
    invoke send cfg query context = invoke send2 cfg query context ∧
    (invoke send cfg query context).outcome = Except.ok
      { generated_text := mockResponse query context.length
        provider_used := cfg.provider
        model_used := cfg.model
        credential_was_supplied := false } ∧
    credLabel false = "⚠️ Mock Mode" := by
  refine ⟨?_, ?_, ?_, rfl⟩ <;> simp [invoke, h]

/-- C1 provider adapter that fails every call, standing in for an
unreachable network. -/
def c1_failing_send : ProviderSend :=
  fun _ _ _ _ => Except.error (ProviderError.transport "network unreachable")

/-- C1 provider adapter that answers every call. -/
def c1_ok_send : ProviderSend :=
  fun _ _ _ _ => Except.ok "a real provider answer"

/-- C1 witness: the default configuration has an empty key, and invoking
with it makes no attempt and yields the same result whether the adapter
would fail or answer. -/
theorem invoke_empty_credential_mock_witness :
    initialLLMConfig.api_key = "" ∧
    (invoke c1_failing_send initialLLMConfig "What is 2+2?" "").attempts = [] ∧
    invoke c1_failing_send initialLLMConfig "What is 2+2?" ""
      = invoke c1_ok_send initialLLMConfig "What is 2+2?" "" := by
  have h := invoke_empty_credential_mock c1_failing_send c1_ok_send
    initialLLMConfig "What is 2+2?" "" rfl
  exact ⟨rfl, h.1, h.2.1⟩

/-- C5: when a credential is supplied and the provider call fails, exactly
one provider attempt is made, to the configured provider and model, with no
retry and no fallback; the failure propagates as the provider error (never
replaced by a mock success), and the chat renders a failed execution
response as a user-visible error message with no result metadata. -/
theorem provider_failure_single_attempt (send : ProviderSend)
    (cfg : LLMConfig) (query context : String) (e : ProviderError)
    (result : ExecResponse)
    (hkey : ¬ cfg.api_key = "")
    (hsend : send cfg.provider cfg.model cfg.api_key
      (buildPrompt cfg query context) = Except.error e)
    (hres : result.success = false) :
    (invoke send cfg query context).outcome = Except.error e ∧
    (invoke send cfg query context).attempts = [(cfg.provider, cfg.model)] ∧
    (invoke send cfg query context).attempts.length = 1 ∧
    (aiMessageOfResult result).isError = true ∧
    (aiMessageOfResult result).text =
      "Sorry, I encountered an error processing your request. Please try again." ∧
    (aiMessageOfResult result).hasMetadata = false := by
  have hinv : invoke send cfg query context =
      { outcome := Except.error e, attempts := [(cfg.provider, cfg.model)] } := by
    rw [invoke, if_neg hkey, hsend]
  have hmsg : aiMessageOfResult result =
      { text := "Sorry, I encountered an error processing your request. Please try again."
        sender := "ai", isError := true, hasMetadata := false } := by
    rw [aiMessageOfResult, if_neg (by simp [hres])]
  rw [hinv, hmsg]
  exact ⟨rfl, rfl, rfl, rfl, rfl, rfl⟩

/-- C5 configuration with a supplied credential. -/
def c5_cfg : LLMConfig :=
  { initialLLMConfig with api_key := "sk-test" }

/-- C5 provider adapter that rejects every call as unauthorized. -/
def c5_failing_send : ProviderSend :=
  fun _ _ _ _ => Except.error (ProviderError.auth "invalid key")

/-- C5 failed execution response as returned by the execute endpoint. -/
def c5_result : ExecResponse :=
  { success := false, response := none, errorText := some "Provider error" }

/-- C5 witness: a failing call with a supplied key makes one attempt,
propagates the auth error, and the chat shows the fixed error message. -/
theorem provider_failure_single_attempt_witness :
    ¬ c5_cfg.api_key = "" ∧
    (invoke c5_failing_send c5_cfg "hello" "").outcome
      = Except.error (ProviderError.auth "invalid key") ∧
    (invoke c5_failing_send c5_cfg "hello" "").attempts.length = 1 ∧
    (aiMessageOfResult c5_result).isError = true := by
  have h := provider_failure_single_attempt c5_failing_send c5_cfg "hello" ""
    (ProviderError.auth "invalid key") c5_result (by decide) rfl rfl
  exact ⟨by decide, h.1, h.2.2.1, h.2.2.2.1⟩

/-- A gather walk never changes the vector store: every step is a read. -/
theorem gatherFrom_store_unchanged (wf q : String) (k : Nat)
    (l : List Node) (store : Store) :
    (gatherFrom store wf q k l).2 = store := by
  induction l generalizing store with
  | nil => rfl
  | cons n rest ih => simp [gatherFrom, querySimilar, ih]

/-- C7: gather is idempotent: it leaves the vector store unchanged, and
invoking it a second time with the same nodes, query and top_k on the store
returned by the first invocation yields exactly the same snippets in the
same order. -/
theorem gather_idempotent (store : Store) (workflowId : String)
    (kbNodes : List Node) (query : String) (topK : Nat) :
    (gather store workflowId kbNodes query topK).2 = store ∧
    (gather (gather store workflowId kbNodes query topK).2
        workflowId kbNodes query topK).1
      = (gather store workflowId kbNodes query topK).1 := by
  have hst : (gather store workflowId kbNodes query topK).2 = store :=
    gatherFrom_store_unchanged workflowId query topK _ store
  exact ⟨hst, by rw [hst]⟩

end WorkflowStudio
